import Mathlib

/-!
Verification development for the roadmap-content FastAPI service
(src/main.py). The service turns a topic string into structured learning
content by rendering a prompt template, invoking an LLM, and coercing the
free-form reply into JSON via a resilient extractor (four near-identical
parser components). This file embeds the data model and the operations of
src/main.py shallowly in Lean and proves/refutes the frozen claims about
the specification.

Conventions of the embedding:
- Python strings are Lean strings; Python `str.find`/`str.rfind`/slicing
  are modelled exactly, including the -1 sentinel and negative-index
  slicing semantics.
- Python `json.loads` is modelled by an executable recursive-descent
  parser over the JSON fragment of values actually exchanged here
  (null, booleans, integer numerals, strings with the standard
  single-character escapes, arrays, objects); floats and unicode escapes
  are outside the model and are not relied upon by any theorem.
- The external library `json_repair.loads` is modelled by its documented
  behaviour on the inputs the theorems exercise: a strictly valid input
  parses to the same value, and input with no parsable content (such as
  the empty string) yields the empty string instead of raising.
- Exceptions (KeyError, IndexError) are modelled with Except.
- The LLM generator is an oracle parameter (a function from the rendered
  prompt to the reply fragments), universally quantified in theorems.
-/

/-- JSON values, as produced by the Python json module for the fragment of
JSON exercised here (numbers restricted to integers). -/
inductive Json where
  | null
  | bool (b : Bool)
  | num (n : Int)
  | str (s : String)
  | arr (items : List Json)
  | obj (fields : List (String × Json))

/-- A reply fragment handed to a parser component: the source annotates
replies as List[Union[str, Dict[str, str]]] (src/main.py line 130). -/
inductive Reply where
  | str (s : String)
  | dict (fields : List (String × String))

/-- Python exceptions that the embedded code can raise: quiz[0] on an
empty list raises IndexError (line 153); result["quiz"] on a dict without
that key raises KeyError (line 189). -/
inductive PyError where
  | indexError
  | keyError
deriving DecidableEq

/-- Model of Python dict.get(k, dflt) on a str-to-str dict (line 135). -/
def pyDictGet (d : List (String × String)) (k dflt : String) : String :=
  match d.lookup k with
  | some v => v
  | none => dflt

/-- Helper for pyFind: index of the first occurrence of c, or -1. -/
def pyFindAux (c : Char) : List Char → Nat → Int
  | [], _ => -1
  | x :: xs, i => if x = c then Int.ofNat i else pyFindAux c xs (i + 1)

/-- Model of Python str.find for a single character: first index of the
character, or -1 when absent (lines 140). -/
def pyFind (s : String) (c : Char) : Int :=
  pyFindAux c s.data 0

/-- Helper for pyRfind: carries the best (latest) index seen so far. -/
def pyRfindAux (c : Char) : List Char → Nat → Int → Int
  | [], _, best => best
  | x :: xs, i, best => pyRfindAux c xs (i + 1) (if x = c then Int.ofNat i else best)

/-- Model of Python str.rfind for a single character: last index of the
character, or -1 when absent (line 141). -/
def pyRfind (s : String) (c : Char) : Int :=
  pyRfindAux c s.data 0 (-1)

/-- Clamp a Python slice index (possibly negative) into [0, len]. -/
def pyBound (len : Nat) (i : Int) : Nat :=
  if i < 0 then (Int.ofNat len + i).toNat else Int.toNat (min i (Int.ofNat len))

/-- Model of the Python slice s[a:b], including negative-index semantics:
a negative index counts from the end of the string (line 143). -/
def pySlice (s : String) (a b : Int) : String :=
  String.mk (((s.data).drop (pyBound s.data.length a)).take
    (pyBound s.data.length b - pyBound s.data.length a))

/-- JSON whitespace as accepted by the Python json module. -/
def isWsChar (c : Char) : Bool :=
  c == ' ' || c == '\t' || c == '\n' || c == '\r'

/-- Drop leading JSON whitespace. -/
def skipWs : List Char → List Char
  | [] => []
  | c :: cs => if isWsChar c then skipWs cs else c :: cs

/-- Accumulate a run of decimal digits into a natural number. -/
def parseNatAux : List Char → Nat → Nat × List Char
  | c :: cs, acc =>
    if c.isDigit then parseNatAux cs (acc * 10 + (c.toNat - 48)) else (acc, c :: cs)
  | [], acc => (acc, [])

/-- Parse an integer numeral with optional leading minus sign. -/
def parseIntTok : List Char → Option (Int × List Char)
  | '-' :: c :: cs =>
    if c.isDigit then
      some (-(Int.ofNat (parseNatAux (c :: cs) 0).1), (parseNatAux (c :: cs) 0).2)
    else none
  | c :: cs =>
    if c.isDigit then
      some (Int.ofNat (parseNatAux (c :: cs) 0).1, (parseNatAux (c :: cs) 0).2)
    else none
  | [] => none

/-- Decode a single-character JSON string escape. -/
def escChar (e : Char) : Option Char :=
  if e = '"' then some '"'
  else if e = '\\' then some '\\'
  else if e = '/' then some '/'
  else if e = 'n' then some '\n'
  else if e = 't' then some '\t'
  else if e = 'r' then some '\r'
  else if e = 'b' then some '\x08'
  else if e = 'f' then some '\x0c'
  else none

/-- Parse the body of a JSON string after the opening quote; the
accumulator holds the decoded characters in reverse. -/
def parseStrAux : List Char → List Char → Option (String × List Char)
  | [], _ => none
  | '"' :: rest, acc => some (String.mk acc.reverse, rest)
  | '\\' :: rest, acc =>
    match rest with
    | [] => none
    | e :: rest2 =>
      match escChar e with
      | some c => parseStrAux rest2 (c :: acc)
      | none => none
  | c :: rest, acc => parseStrAux rest (c :: acc)

mutual

/-- Fuel-indexed JSON value parsing (model of the strict grammar used by
the Python json module, integers only). -/
def parseVal : Nat → List Char → Option (Json × List Char)
  | 0, _ => none
  | fuel + 1, cs =>
    match skipWs cs with
    | [] => none
    | '\x7b' :: rest =>
      (match skipWs rest with
       | '\x7d' :: rest2 => some (Json.obj [], rest2)
       | rest2 =>
         match parseMembers fuel rest2 with
         | some (fields, rest3) => some (Json.obj fields, rest3)
         | none => none)
    | '[' :: rest =>
      (match skipWs rest with
       | ']' :: rest2 => some (Json.arr [], rest2)
       | rest2 =>
         match parseItems fuel rest2 with
         | some (items, rest3) => some (Json.arr items, rest3)
         | none => none)
    | '"' :: rest =>
      (match parseStrAux rest [] with
       | some (s, rest2) => some (Json.str s, rest2)
       | none => none)
    | 't' :: 'r' :: 'u' :: 'e' :: rest => some (Json.bool true, rest)
    | 'f' :: 'a' :: 'l' :: 's' :: 'e' :: rest => some (Json.bool false, rest)
    | 'n' :: 'u' :: 'l' :: 'l' :: rest => some (Json.null, rest)
    | other =>
      match parseIntTok other with
      | some (n, rest) => some (Json.num n, rest)
      | none => none

/-- Parse the comma-separated items of a non-empty JSON array, up to and
including the closing bracket. -/
def parseItems : Nat → List Char → Option (List Json × List Char)
  | 0, _ => none
  | fuel + 1, cs =>
    match parseVal fuel cs with
    | none => none
    | some (v, rest) =>
      match skipWs rest with
      | ',' :: rest2 =>
        (match parseItems fuel rest2 with
         | some (vs, rest3) => some (v :: vs, rest3)
         | none => none)
      | ']' :: rest2 => some ([v], rest2)
      | _ => none

/-- Parse the comma-separated members of a non-empty JSON object, up to
and including the closing brace. -/
def parseMembers : Nat → List Char → Option (List (String × Json) × List Char)
  | 0, _ => none
  | fuel + 1, cs =>
    match skipWs cs with
    | '"' :: rest =>
      (match parseStrAux rest [] with
       | some (k, rest2) =>
         (match skipWs rest2 with
          | ':' :: rest3 =>
            (match parseVal fuel rest3 with
             | none => none
             | some (v, rest4) =>
               match skipWs rest4 with
               | ',' :: rest5 =>
                 (match parseMembers fuel rest5 with
                  | some (fields, rest6) => some ((k, v) :: fields, rest6)
                  | none => none)
               | '\x7d' :: rest5 => some ([(k, v)], rest5)
               | _ => none)
          | _ => none)
       | none => none)
    | _ => none

end

/-- Model of Python json.loads (line 146): parse one JSON value and
require only trailing whitespace after it; any syntactic deviation makes
the whole parse fail (strict parse). -/
def json_loads (s : String) : Option Json :=
  match parseVal (2 * s.length + 4) s.data with
  | some (v, rest) => if (skipWs rest).isEmpty then some v else none
  | none => none

/-- Model of the external json_repair.loads (line 149): strictly valid
JSON parses to the same value; input with no parsable content (in
particular the empty string) yields the empty string instead of raising.
Heuristic repairs of non-empty malformed text are not modelled further;
no theorem below depends on them. -/
def json_repair_loads (s : String) : Json :=
  match json_loads s with
  | some v => v
  | none => Json.str ""

/-- The body of the fragment-concatenation loop shared by all four
parser components (lines 133-137): a dict fragment appends its "text"
field (default the empty string), a string fragment appends itself. -/
def reply_step (acc : String) (reply : Reply) : String :=
  match reply with
  | Reply.dict d => acc ++ pyDictGet d "text" ""
  | Reply.str s => acc ++ s

/-- The fragment-concatenation loop shared by all four parser components
(lines 131-137): fold the loop body over the replies in encounter order,
starting from the empty string. -/
def combined_reply (replies : List Reply) : String :=
  replies.foldl reply_step ""

/-- The window-selection step shared by all four parser components (lines
140-143): slice from min(find, find) of the openers to one past
max(rfind, rfind) of the closers, with Python -1/negative-index
semantics. -/
def json_portion (combined : String) : String :=
  pySlice combined
    (min (pyFind combined '\x7b') (pyFind combined '['))
    (max (pyRfind combined '\x7d') (pyRfind combined ']') + 1)

/-- The two-stage parse shared by all four parser components (lines
145-149): strict json.loads first, json_repair.loads only when the
strict parse raises. -/
def parse_or_repair (s : String) : Json :=
  match json_loads s with
  | some v => v
  | none => json_repair_loads s

/-- The normalization step shared by all four parser components (lines
151-153): a top-level list is replaced by its first element, and the
subscript on an empty list raises IndexError. -/
def normalize_first : Json → Except PyError Json
  | Json.arr [] => Except.error PyError.indexError
  | Json.arr (x :: _) => Except.ok x
  | v => Except.ok v

/-- The complete extraction algorithm shared verbatim by QuizParser
(lines 131-153), CourseParser (lines 235-257), ProjectParser (lines
341-363) and the second QuizParser (lines 450-472). -/
def resilient_extract (replies : List Reply) : Except PyError Json :=
  normalize_first (parse_or_repair (json_portion (combined_reply replies)))

/-- QuizParser.run of the roadmap section (lines 128-155): extraction
result wrapped under the output key "quiz". -/
def QuizParser_run (replies : List Reply) : Except PyError (List (String × Json)) :=
  match resilient_extract replies with
  | Except.ok quiz => Except.ok [("quiz", quiz)]
  | Except.error e => Except.error e

/-- CourseParser.run (lines 232-259): extraction result wrapped under the
output key "courses". -/
def CourseParser_run (replies : List Reply) : Except PyError (List (String × Json)) :=
  match resilient_extract replies with
  | Except.ok courses => Except.ok [("courses", courses)]
  | Except.error e => Except.error e

/-- ProjectParser.run (lines 338-365): extraction result wrapped under
the output key "projects". -/
def ProjectParser_run (replies : List Reply) : Except PyError (List (String × Json)) :=
  match resilient_extract replies with
  | Except.ok projects => Except.ok [("projects", projects)]
  | Except.error e => Except.error e

/-- The second class named QuizParser (lines 447-474), which shadows the
first at module load: extraction result wrapped under the output key
"quizzes". -/
def QuizParserV2_run (replies : List Reply) : Except PyError (List (String × Json)) :=
  match resilient_extract replies with
  | Except.ok quizzes => Except.ok [("quizzes", quizzes)]
  | Except.error e => Except.error e

/-- Model of haystack PromptBuilder rendering (Jinja2) as used by the
templates of src/main.py: each slot written as a doubled-braced variable
name is replaced by the value bound to that name. -/
def render (template : String) (vars : List (String × String)) : String :=
  vars.foldl (fun acc kv =>
    acc.replace ("\x7b\x7b" ++ kv.1 ++ "\x7d\x7d") kv.2) template

/-- roadmap_template (src/main.py lines 101-125), transcribed verbatim. -/
def roadmap_template : String :=
  "Given the following skill/topic - \"\x7b\x7btopic\x7d\x7d\", create a learning roadmap in JSON format.\nThe roadmap will be like a tree which will be having branches. Each branch corresponds to a step (skill/task).\nThe step should also come with a description.\nThe steps and it\x27s description should be unambiguous.\nThe description should also briefly mention the general topic of the text so that it can be understood by the student on how to learn that skill.\nMinimum of 6 steps. Maximum of 8 steps.\nrespond with JSON only, no markdown or descriptions.\n\nexample JSON format you should absolutely follow:\n\x7b\n  \"topic\": \"a brief explanation of the topic and it\x27s demand in the market\",\n  \"steps\": [\n    \x7b\n      \"step\": \"Step title\",\n      \"description\": \"Explanation of what needs to be done in this step\"\n    \x7d,\n    \x7b\n      \"step\": \"Step title\",\n      \"description\": \"Explanation of what needs to be done in this step\"\n    \x7d, ...\n    \n  ]\n\x7d\n\n"

/-- quiz_generation_template (src/main.py lines 405-442), transcribed
verbatim. -/
def quiz_generation_template : String :=
  "Given the following skill/topic - \"\x7b\x7btopic\x7d\x7d\", create 5 multiple choice quizzes in JSON format.\nEach quiz should have a question related to the topic, with 4 different options, and only one correct answer.\nEnsure that the options are clear and unambiguous, and each option should start with a letter followed by a period and a space (e.g., \"a. option\").\nThe questions should cover various aspects of the topic and require reasoning and understanding of the topic.\nAvoid giving hints in one question that could help answer other questions.\n\nExample JSON format you should absolutely follow:\n\x7b\n  \"topic\": \"A brief explanation of the topic\",\n  \"questions\": [\n    \x7b\n      \"id\": 1,\n      \"question\": \"Text of the question\",\n      \"options\": [\n        \"a. First option\",\n        \"b. Second option\",\n        \"c. Third option\",\n        \"d. Fourth option\"\n      ],\n      \"right_option\": \"c\"  # The letter corresponding to the correct option (\"a\", \"b\", \"c\", or \"d\")\n    \x7d,\n    \x7b\n      \"id\": 2,\n      \"question\": \"Text of the question\",\n      \"options\": [\n        \"a. First option\",\n        \"b. Second option\",\n        \"c. Third option\",\n        \"d. Fourth option\"\n      ],\n      \"right_option\": \"a\"  # The letter corresponding to the correct option\n    \x7d,\n    ...\n  ]\n\x7d\n\nRespond with JSON only, no markdown or descriptions.\n"

/-- A haystack pipeline as wired in src/main.py: a prompt template fed to
the generator, whose replies feed one named parser component; the
generator itself is an external oracle supplied at run time. -/
structure Pipeline where
  template : String
  parserName : String
  parserRun : List Reply → Except PyError (List (String × Json))

/-- Pipeline.run (model of haystack Pipeline.run as wired here): render
the template with the topic, hand the prompt to the generator oracle,
run the parser on the replies, and return the outputs keyed by component
name. (The source passes the singleton list [topic] to Jinja2, which
stringifies it inside the prompt; the prompt text plays no role in any
theorem below since the oracle is universally quantified.) -/
def Pipeline.run (p : Pipeline) (topic : String) (llm : String → List Reply) :
    Except PyError (List (String × List (String × Json))) :=
  match p.parserRun (llm (render p.template [("topic", topic)])) with
  | Except.ok out => Except.ok [(p.parserName, out)]
  | Except.error e => Except.error e

/-- The first binding of the module-level name quiz_generation_pipeline
(lines 159-179): roadmap template, first QuizParser. This binding is
shadowed before any request is served. -/
def quiz_generation_pipeline_first_binding : Pipeline :=
  Pipeline.mk roadmap_template "quiz_parser" QuizParser_run

/-- The final binding of the module-level name quiz_generation_pipeline
(lines 478-499): quiz template, second QuizParser. Python resolves the
global name at call time, so this is the pipeline every request uses. -/
def quiz_generation_pipeline : Pipeline :=
  Pipeline.mk quiz_generation_template "quiz_parser" QuizParserV2_run

/-- generate_quiz (lines 182-191): runs the pipeline bound to the global
name quiz_generation_pipeline and reads result["quiz_parser"]["quiz"];
a missing dict key raises KeyError. -/
def generate_quiz (topic : String) (llm : String → List Reply) : Except PyError Json :=
  match Pipeline.run quiz_generation_pipeline topic llm with
  | Except.error e => Except.error e
  | Except.ok result =>
    match result.lookup "quiz_parser" with
    | none => Except.error PyError.keyError
    | some componentOut =>
      match componentOut.lookup "quiz" with
      | none => Except.error PyError.keyError
      | some v => Except.ok v

/-- create_roadmap, the POST /roadmap/ handler (lines 66-69): returns
generate_quiz(topic.title). -/
def create_roadmap (topic : String) (llm : String → List Reply) : Except PyError Json :=
  generate_quiz topic llm

/-- A course entry as produced by the course pipeline: name and url. -/
structure Course where
  name : String
  url : String

/-- The course document shape consumed by check_course_urls: a topic and
a list of course entries. -/
structure CourseDoc where
  topic : String
  courses : List Course

/-- The loop body of check_course_urls (lines 287-298): per course, issue
a HEAD request (modelled as an oracle from url to an optional status
code, none meaning requests.RequestException was raised); keep the
course exactly when the status code is 200; an exception skips only that
course and the loop continues. -/
def check_course_urls_loop (head : String → Option Nat) : List Course → List Course
  | [] => []
  | course :: rest =>
    match head course.url with
    | none => check_course_urls_loop head rest
    | some status =>
      if status = 200 then course :: check_course_urls_loop head rest
      else check_course_urls_loop head rest

/-- check_course_urls (lines 284-299): returns the topic unchanged and
the filtered course list. -/
def check_course_urls (head : String → Option Nat) (courses : CourseDoc) : CourseDoc :=
  CourseDoc.mk courses.topic (check_course_urls_loop head courses.courses)

/-- Whether an Except result is a success (no exception escaped). -/
def exceptIsOk {α : Type} : Except PyError α → Bool
  | Except.ok _ => true
  | Except.error _ => false

/-- Whether a character is one of the four bracket markers the extractor
searches for. -/
def isBracketChar (c : Char) : Bool :=
  c == '\x7b' || c == '\x7d' || c == '[' || c == ']'

/-- Whether a string contains any of the four bracket markers. -/
def hasBracketChar (s : String) : Bool :=
  s.data.any isBracketChar

/-- Whether a JSON value is a mapping (dict). -/
def jsonIsObj : Json → Bool
  | Json.obj _ => true
  | _ => false

/-- The contribution of a single fragment, as the spec words it: a
mapping fragment contributes its text field (empty string when absent),
a plain-text fragment contributes itself. Spec-side counterpart of the
loop body inside combined_reply, for the refinement claim C8. -/
def fragment_text : Reply → String
  | Reply.dict d => pyDictGet d "text" ""
  | Reply.str s => s

/-- Spec-side concatenation in encounter order, for claim C8. -/
def concat_fragment_texts : List Reply → String
  | [] => ""
  | r :: rs => fragment_text r ++ concat_fragment_texts rs

/-- A character absent from a list is never found by pyFindAux. -/
theorem pyFindAux_of_not_mem {c : Char} :
    ∀ (l : List Char) (i : Nat), (∀ x ∈ l, x ≠ c) → pyFindAux c l i = -1 := by
  intro l
  induction l with
  | nil => intro i _; rfl
  | cons x xs ih =>
    intro i h
    unfold pyFindAux
    rw [if_neg (h x (List.mem_cons_self x xs))]
    exact ih (i + 1) (fun y hy => h y (List.mem_cons_of_mem x hy))

/-- A character absent from a list leaves the pyRfindAux accumulator
untouched. -/
theorem pyRfindAux_of_not_mem {c : Char} :
    ∀ (l : List Char) (i : Nat) (best : Int), (∀ x ∈ l, x ≠ c) → pyRfindAux c l i best = best := by
  intro l
  induction l with
  | nil => intro i best _; rfl
  | cons x xs ih =>
    intro i best h
    unfold pyRfindAux
    rw [if_neg (h x (List.mem_cons_self x xs))]
    exact ih (i + 1) best (fun y hy => h y (List.mem_cons_of_mem x hy))

/-- A Python slice whose stop index is 0 is always the empty string. -/
theorem pySlice_to_zero (s : String) (a : Int) : pySlice s a 0 = "" := by
  have hb : pyBound s.data.length 0 = 0 := by
    unfold pyBound
    have h0 : ¬ ((0 : Int) < 0) := by omega
    rw [if_neg h0]
    have hm : min (0 : Int) (Int.ofNat s.data.length) = 0 :=
      min_eq_left (Int.ofNat_nonneg _)
    simp [hm]
  unfold pySlice
  rw [hb, Nat.zero_sub, List.take_zero]

/-- On a string with none of the four bracket markers, both finds return
-1, both rfinds return -1, and the selected window is the empty string. -/
theorem json_portion_of_no_brackets (s : String) (h : hasBracketChar s = false) :
    json_portion s = "" := by
  have hmem : ∀ x ∈ s.data, isBracketChar x = false := by
    intro x hx
    rcases hb : isBracketChar x with _ | _
    · rfl
    · exfalso
      have : s.data.any isBracketChar = true := List.any_eq_true.mpr ⟨x, hx, hb⟩
      rw [hasBracketChar] at h
      rw [this] at h
      exact Bool.noConfusion h
  have hne : ∀ c : Char, isBracketChar c = true → ∀ x ∈ s.data, x ≠ c := by
    intro c hc x hx heq
    rw [heq] at hx
    have := hmem c hx
    rw [hc] at this
    exact Bool.noConfusion this
  unfold json_portion pyFind pyRfind
  rw [pyFindAux_of_not_mem s.data 0 (hne '\x7b' (by decide)),
      pyFindAux_of_not_mem s.data 0 (hne '[' (by decide)),
      pyRfindAux_of_not_mem s.data 0 (-1) (hne '\x7d' (by decide)),
      pyRfindAux_of_not_mem s.data 0 (-1) (hne ']' (by decide))]
  have h1 : min (-1 : Int) (-1) = -1 := by omega
  have h2 : max (-1 : Int) (-1) + 1 = 0 := by omega
  rw [h1, h2]
  exact pySlice_to_zero s _

/-- Folding the concatenation loop body distributes over the spec-side
per-fragment concatenation. -/
theorem foldl_reply_step :
    ∀ (l : List Reply) (acc : String),
      List.foldl reply_step acc l = acc ++ concat_fragment_texts l := by
  intro l
  induction l with
  | nil =>
    intro acc
    show acc = acc ++ concat_fragment_texts []
    rw [concat_fragment_texts, String.append_empty]
  | cons hd tl ih =>
    intro acc
    show List.foldl reply_step (reply_step acc hd) tl = acc ++ concat_fragment_texts (hd :: tl)
    rw [ih (reply_step acc hd), concat_fragment_texts]
    cases hd with
    | str s =>
      show acc ++ s ++ concat_fragment_texts tl = acc ++ (fragment_text (Reply.str s) ++ concat_fragment_texts tl)
      rw [fragment_text, String.append_assoc]
    | dict d =>
      show acc ++ pyDictGet d "text" "" ++ concat_fragment_texts tl =
        acc ++ (fragment_text (Reply.dict d) ++ concat_fragment_texts tl)
      rw [fragment_text, String.append_assoc]

/-- Claim C2 fails on the code: for the reply "note \x7b"a": 1\x7d done",
whose concatenation is the well-formed JSON object \x7b"a": 1\x7d
surrounded by prose and containing no bracket character, str.find returns
-1 for the absent opener, min(-1, 5) = -1, and the Python slice
combined[-1:13] is empty, so extraction returns the tolerant repair of
the empty string — the empty string — instead of the embedded object.
The second conjunct shows the embedded window is strictly well-formed;
the third shows the selected window is empty. -/
theorem c2_window_start_counterexample :
    QuizParser_run [Reply.str "note \x7b\"a\": 1\x7d done"] =
      Except.ok [("quiz", Json.str "")] ∧
    json_loads "\x7b\"a\": 1\x7d" = some (Json.obj [("a", Json.num 1)]) ∧
    json_portion (combined_reply [Reply.str "note \x7b\"a\": 1\x7d done"]) = "" :=
  ⟨rfl, rfl, rfl⟩

/-- Claim C3 (amended): on a fragment list whose concatenation contains
none of the four bracket markers, the selected window is always the
empty string, the strict parse of it fails, and extract returns the
tolerant repair of the empty string — the empty string — without raising
any error. -/
theorem c3_no_brackets_returns_empty_string :
    ∀ replies : List Reply,
      hasBracketChar (combined_reply replies) = false →
      QuizParser_run replies = Except.ok [("quiz", Json.str "")] := by
  intro replies h
  have hp : json_portion (combined_reply replies) = "" :=
    json_portion_of_no_brackets _ h
  unfold QuizParser_run resilient_extract
  rw [hp]
  rfl

/-- Witness for c3_no_brackets_returns_empty_string at the concrete
fragment list ["hello"]. -/
theorem c3_no_brackets_witness :
    hasBracketChar (combined_reply [Reply.str "hello"]) = false ∧
    QuizParser_run [Reply.str "hello"] = Except.ok [("quiz", Json.str "")] :=
  ⟨rfl, c3_no_brackets_returns_empty_string [Reply.str "hello"] rfl⟩

/-- Claim C3 as stated is false on the code: the fragment list
["hello world"] contains no bracket marker, yet extract does not raise —
it returns a value, namely the empty string (not even a mapping). -/
theorem c3_counterexample :
    hasBracketChar (combined_reply [Reply.str "hello world"]) = false ∧
    QuizParser_run [Reply.str "hello world"] = Except.ok [("quiz", Json.str "")] :=
  ⟨rfl, rfl⟩

/-- Claim C4 (amended): when the parsed (or repaired) window is a
top-level sequence, a non-empty sequence yields its first element, and
an empty sequence raises an uncaught IndexError (the subscript quiz[0]),
not a typed extraction error. -/
theorem c4_list_normalization :
    ∀ (replies : List Reply) (l : List Json),
      parse_or_repair (json_portion (combined_reply replies)) = Json.arr l →
      QuizParser_run replies =
        (match l with
         | [] => Except.error PyError.indexError
         | x :: _ => Except.ok [("quiz", x)]) := by
  intro replies l h
  unfold QuizParser_run resilient_extract
  rw [h]
  cases l with
  | nil => rfl
  | cons x xs => rfl

/-- Witness for c4_list_normalization at the concrete fragment list
["[1] \x7b"], whose window "[1]" strictly parses to the one-element
sequence [1]. -/
theorem c4_list_normalization_witness :
    QuizParser_run [Reply.str "[1] \x7b"] = Except.ok [("quiz", Json.num 1)] :=
  c4_list_normalization [Reply.str "[1] \x7b"] [Json.num 1] rfl

/-- Claim C4 as stated is false on the code: the fragment list
["[] \x7b"] selects the window "[]", which strictly parses to the empty
sequence, and the code raises IndexError (an unhandled crash from
quiz[0]), not a typed extraction error. -/
theorem c4_counterexample :
    QuizParser_run [Reply.str "[] \x7b"] = Except.error PyError.indexError :=
  rfl

/-- Claim C6: the strict parse is attempted first; when it succeeds, its
value is used as-is and the tolerant repair parser is never consulted;
the repair parse is attempted exactly when the strict parse fails. -/
theorem c6_strict_then_repair :
    (∀ (replies : List Reply) (v : Json),
        json_loads (json_portion (combined_reply replies)) = some v →
        parse_or_repair (json_portion (combined_reply replies)) = v) ∧
    (∀ replies : List Reply,
        json_loads (json_portion (combined_reply replies)) = none →
        parse_or_repair (json_portion (combined_reply replies)) =
          json_repair_loads (json_portion (combined_reply replies))) := by
  constructor
  · intro replies v h
    unfold parse_or_repair
    rw [h]
  · intro replies h
    unfold parse_or_repair
    rw [h]

/-- Witness for c6_strict_then_repair at the concrete fragment list
["x \x7b"a": [1]\x7d y"], whose window strictly parses. -/
theorem c6_strict_then_repair_witness :
    parse_or_repair (json_portion (combined_reply [Reply.str "x \x7b\"a\": [1]\x7d y"])) =
      Json.obj [("a", Json.arr [Json.num 1])] :=
  c6_strict_then_repair.1 [Reply.str "x \x7b\"a\": [1]\x7d y"]
    (Json.obj [("a", Json.arr [Json.num 1])]) rfl

/-- Claim C8: the concatenation step processes fragments in encounter
order, a mapping fragment contributing its text field (empty string when
absent) and a plain string fragment contributing itself verbatim. -/
theorem c8_concatenation :
    ∀ replies : List Reply, combined_reply replies = concat_fragment_texts replies := by
  intro replies
  unfold combined_reply
  rw [foldl_reply_step, String.empty_append]

/-- Claim C9: rendering is deterministic — two render calls with
identical template and identical variables produce identical text. -/
theorem c9_render_deterministic :
    ∀ (t1 t2 : String) (v1 v2 : List (String × String)),
      t1 = t2 → v1 = v2 → render t1 v1 = render t2 v2 := by
  intro t1 t2 v1 v2 ht hv
  rw [ht, hv]

/-- Witness for c9_render_deterministic at the roadmap template and the
variable binding topic := "Python". -/
theorem c9_render_deterministic_witness :
    render roadmap_template [("topic", "Python")] =
      render roadmap_template [("topic", "Python")] :=
  c9_render_deterministic roadmap_template roadmap_template
    [("topic", "Python")] [("topic", "Python")] rfl rfl

/-- Claim C10: the three parser components hold no per-call mutable
state; each run is a pure function of its fragment list, so equal
fragment lists give equal results regardless of interleaved calls. -/
theorem c10_parsers_stateless :
    (∀ a b : List Reply, a = b → QuizParser_run a = QuizParser_run b) ∧
    (∀ a b : List Reply, a = b → CourseParser_run a = CourseParser_run b) ∧
    (∀ a b : List Reply, a = b → ProjectParser_run a = ProjectParser_run b) := by
  refine ⟨?_, ?_, ?_⟩ <;> intro a b h <;> rw [h]

/-- Witness for c10_parsers_stateless at a concrete fragment list with a
mapping fragment. -/
theorem c10_parsers_stateless_witness :
    QuizParser_run [Reply.dict [("text", "ok")]] =
      QuizParser_run [Reply.dict [("text", "ok")]] :=
  c10_parsers_stateless.1 [Reply.dict [("text", "ok")]]
    [Reply.dict [("text", "ok")]] rfl

/-- Claim C5 (amended): whenever extract returns a value, that value is
the parsed (or repaired) window value, or the first element of a parsed
top-level sequence — it is not guaranteed to be a mapping. -/
theorem c5_returned_shape :
    ∀ (replies : List Reply) (v : Json),
      QuizParser_run replies = Except.ok [("quiz", v)] →
      parse_or_repair (json_portion (combined_reply replies)) = v ∨
      ∃ tail, parse_or_repair (json_portion (combined_reply replies)) = Json.arr (v :: tail) := by
  intro replies v h
  unfold QuizParser_run resilient_extract at h
  cases hp : parse_or_repair (json_portion (combined_reply replies)) with
  | arr items =>
    cases items with
    | nil =>
      rw [hp] at h
      simp [normalize_first] at h
    | cons x tail =>
      rw [hp] at h
      simp [normalize_first] at h
      right
      refine ⟨tail, ?_⟩
      rw [h]
  | null =>
    rw [hp] at h
    simp [normalize_first] at h
    left
    exact h
  | bool b =>
    rw [hp] at h
    simp [normalize_first] at h
    left
    exact h
  | num n =>
    rw [hp] at h
    simp [normalize_first] at h
    left
    exact h
  | str s =>
    rw [hp] at h
    simp [normalize_first] at h
    left
    exact h
  | obj fields =>
    rw [hp] at h
    simp [normalize_first] at h
    left
    exact h

/-- Witness for c5_returned_shape at a concrete fragment list whose
window parses to a mapping. -/
theorem c5_returned_shape_witness :
    parse_or_repair (json_portion (combined_reply [Reply.str "\x7b\"a\": 1\x7d ["])) =
      Json.obj [("a", Json.num 1)] ∨
    ∃ tail, parse_or_repair (json_portion (combined_reply [Reply.str "\x7b\"a\": 1\x7d ["])) =
      Json.arr (Json.obj [("a", Json.num 1)] :: tail) :=
  c5_returned_shape [Reply.str "\x7b\"a\": 1\x7d ["] (Json.obj [("a", Json.num 1)]) rfl

/-- Claim C5 as stated is false on the code: on the fragment list
["[1,2] \x7b"] extract returns the number 1, which is not a mapping. -/
theorem c5_counterexample :
    QuizParser_run [Reply.str "[1,2] \x7b"] = Except.ok [("quiz", Json.num 1)] ∧
    jsonIsObj (Json.num 1) = false :=
  ⟨rfl, rfl⟩

/-- Claim C7 (amended): check_course_urls keeps the topic unchanged and
filters the courses to exactly those whose HEAD request returns status
code 200; a network error while checking one URL (head returning none)
drops only that entry, and the remaining URLs are still validated —
which the filter characterization expresses, since the fate of each
entry depends only on its own URL. -/
theorem c7_filter_exact_200 :
    ∀ (head : String → Option Nat) (doc : CourseDoc),
      check_course_urls head doc =
        CourseDoc.mk doc.topic
          (doc.courses.filter (fun course => head course.url == some 200)) := by
  intro head doc
  unfold check_course_urls
  have hl : ∀ l : List Course,
      check_course_urls_loop head l =
        l.filter (fun course => head course.url == some 200) := by
    intro l
    induction l with
    | nil => rfl
    | cons c rest ih =>
      unfold check_course_urls_loop
      cases hc : head c.url with
      | none =>
        rw [ih, List.filter_cons, hc]
        simp
      | some status =>
        by_cases hs : status = 200
        · subst hs
          simp [ih, List.filter_cons, hc]
        · simp [ih, List.filter_cons, hc, hs]
  rw [hl]

/-- Claim C7 as stated is false on the code: a URL answering the HEAD
request with 204 — a successful HTTP status — is dropped, because the
code keeps only entries with status exactly 200. -/
theorem c7_counterexample :
    check_course_urls (fun _ => some 204) (CourseDoc.mk "t" [Course.mk "Name" "url"]) =
      CourseDoc.mk "t" [] ∧ 200 ≤ 204 ∧ 204 < 300 :=
  ⟨rfl, by omega, by omega⟩

/-- Inversion for Pipeline.run: a successful run means the parser
succeeded and the result holds the parser output under the component
name. -/
theorem pipeline_run_ok_inv (p : Pipeline) (topic : String) (llm : String → List Reply)
    (result : List (String × List (String × Json))) :
    Pipeline.run p topic llm = Except.ok result →
    ∃ out, p.parserRun (llm (render p.template [("topic", topic)])) = Except.ok out ∧
      result = [(p.parserName, out)] := by
  unfold Pipeline.run
  cases h : p.parserRun (llm (render p.template [("topic", topic)])) with
  | ok out =>
    intro heq
    cases heq
    exact ⟨out, rfl, rfl⟩
  | error e =>
    intro heq
    cases heq

/-- The second QuizParser publishes its output under the key "quizzes"
only; looking up "quiz" in a successful output finds nothing. -/
theorem quizParserV2_run_ok_no_quiz_key (replies : List Reply) (out : List (String × Json)) :
    QuizParserV2_run replies = Except.ok out → out.lookup "quiz" = none := by
  unfold QuizParserV2_run
  cases resilient_extract replies with
  | ok q =>
    intro h
    cases h
    rfl
  | error e =>
    intro h
    cases h

/-- Claim C1 fails on the code: the module-level name
quiz_generation_pipeline is reassigned at line 478 before any request is
served, so the POST /roadmap/ handler runs the pipeline built on
quiz_generation_template (not roadmap_template), and generate_quiz then
reads result["quiz_parser"]["quiz"] while the active parser outputs the
key "quizzes" — every call fails (with KeyError once the parser
succeeds), for every topic and every generator reply. -/
theorem c1_roadmap_endpoint_broken :
    ∀ (topic : String) (llm : String → List Reply),
      exceptIsOk (create_roadmap topic llm) = false ∧
      quiz_generation_pipeline.template = quiz_generation_template ∧
      (roadmap_template == quiz_generation_template) = false := by
  intro topic llm
  refine ⟨?_, rfl, by decide⟩
  show exceptIsOk (generate_quiz topic llm) = false
  unfold generate_quiz
  cases hrun : Pipeline.run quiz_generation_pipeline topic llm with
  | error e => rfl
  | ok result =>
    obtain ⟨out, hout, hres⟩ := pipeline_run_ok_inv _ _ _ _ hrun
    have hlq : out.lookup "quiz" = none :=
      quizParserV2_run_ok_no_quiz_key _ out hout
    subst hres
    simp [quiz_generation_pipeline, List.lookup, hlq, exceptIsOk]
